import Mathlib

/-!
Shallow embedding of the Mind Flow agent core (src/brain.py and the turn
handling in src/app.py):

* `Message`, `ToolCall`, `ToolArgs` mirror the langchain message values the
  code manipulates (Human/AI/System/Tool messages, tool-call records).
* A Completion Provider is a deterministic function from the bound-tool list
  and the message list to an assistant reply (`Provider`); every invocation
  the code makes is also logged in a trace so that call counts and bound
  tools are observable.
* The LangGraph state machine of `create_mind_flow_brain` is embedded as a
  node set (`Node`), per-node step functions (`run_node`), the edge map
  (`successor` / `conditional_edge`) and a fuel-bounded runner (`graph_run`,
  fuel 25 matching LangGraph's default recursion limit).
* The journal database mutated through `update_callback` is threaded as an
  explicit `List JournalEntry`; wall-clock timestamps are not modelled.
* The module-level turn handling of app.py (safety gate, brain invocation,
  appending `result["messages"][-1]`, toast notifications) is `submitTurn`.
* Python exceptions (`AttributeError` when `save_tool` is `None` but the
  reply carries tool calls, LangGraph's recursion error) are modelled by the
  `error` field of the state; effects already performed survive an error.
-/

namespace MindFlow

set_option maxRecDepth 200000

/-- Arguments of the one registered tool, `save_journal_entry(mood, energy, note)`. -/
structure ToolArgs where
  mood : String
  energy : Int
  note : String
deriving DecidableEq

/-- A tool-invocation request inside an assistant message (langchain tool call dict). -/
structure ToolCall where
  id : String
  name : String
  args : ToolArgs
deriving DecidableEq

/-- Conversation messages: HumanMessage, AIMessage (with tool calls),
SystemMessage and ToolMessage of langchain_core. -/
inductive Message where
  | human (content : String)
  | ai (content : String) (tool_calls : List ToolCall)
  | system (content : String)
  | tool (content : String) (tool_call_id : String)
deriving DecidableEq

/-- An assistant reply as returned by one Completion Provider invocation. -/
structure AIMsg where
  content : String
  tool_calls : List ToolCall
deriving DecidableEq

/-- A deterministic Completion Provider stub: given the list of bound tool
names and the message list, produce the assistant reply. -/
def Provider : Type := List String → List Message → AIMsg

/-- One logged provider invocation: which tools were bound, which messages were sent. -/
structure ProviderCall where
  tools : List String
  msgs : List Message
deriving DecidableEq

/-- One row appended to the journal database by `update_journal` in app.py
(the wall-clock timestamp column is not modelled). -/
structure JournalEntry where
  mood : String
  energy : Int
  note : String
deriving DecidableEq

/-- Substring occurrence on character lists: `isPrefixChars p s` holds when
`p` is a prefix of `s`. -/
def isPrefixChars : List Char → List Char → Bool
  | [], _ => true
  | _ :: _, [] => false
  | p :: ps, c :: cs => p == c && isPrefixChars ps cs

/-- `occursIn pat s` holds when `pat` occurs contiguously inside `s`. -/
def occursIn : List Char → List Char → Bool
  | pat, [] => pat.isEmpty
  | pat, c :: cs => isPrefixChars pat (c :: cs) || occursIn pat cs

/-- Python's `needle in haystack` on strings: substring containment. -/
def containsSub (haystack pat : String) : Bool :=
  occursIn pat.data haystack.data

/-- Python's `str.lower()`: per-character lowercasing (ASCII range, matching
`Char.toLower`; the crisis keywords are lowercase ASCII or caseless CJK). -/
def strToLower (s : String) : String :=
  String.mk (s.data.map Char.toLower)

/-- Python's `str.upper()`: per-character uppercasing (ASCII range; the four
router labels are ASCII). -/
def strToUpper (s : String) : String :=
  String.mk (s.data.map Char.toUpper)

/-- STRATEGIST_PROMPT of brain.py (triple-quoted literal, leading and trailing
newline included). -/
def STRATEGIST_PROMPT : String :=
  "\nYou are 'The Strategist', a 12-Week Year planner.\nYour Goal: Clarify vague goals into actionable plans.\n\nGuidelines:\n1. **Refuse Vague Goals:** If user says \"I want to lose weight\", ask \"What is the specific metric?\"\n2. **The 12-Week Mindset:** Focus on what can be done THIS week to move the needle.\n3. **Outcome:** End with a clear plan, then hand over to 'The Starter' to execute the first step.\n"

/-- HEALER_PROMPT of brain.py. -/
def HEALER_PROMPT : String :=
  "\nYou are 'The Healer', a companion with deep emotional intelligence (Gemini-style).\nYour Goal: Make the user feel 100% understood and safe.\n\n**Core Personality Guidelines:**\n1. **Pacing over Solving:** Do NOT offer solutions in your first response. Spend 100% of the effort on validation.\n   - Bad: \"You feel sad. Do this.\"\n   - Good: \"It sounds like a really heavy day. That feeling of wanting to move but being stuck is incredibly exhausting.\"\n2. **Rich Vocabulary:** Use nuanced emotional words (e.g., \"frazzled\", \"weighed down\", \"scattered\").\n3. **Tentative Tone:** Use phrases like \"I wonder if...\", \"It makes sense that...\", \"Perhaps...\".\n4. **The \"We\" Perspective:** Always use \"We\". \"Let's sit with this feeling.\"\n"

/-- STARTER_PROMPT of brain.py. -/
def STARTER_PROMPT : String :=
  "\nYou are 'The Starter', an Atomic Habits coach.\nYour Goal: Convert intent into a tiny, undeniable action (Micro-step).\n\nGuidelines:\n1. **Be Concise:** Keep response SHORT (max 3 sentences). Long text = cognitive load.\n2. **Negotiate Down:** If user hesitates, lower the bar. \"Can't run? Just put on shoes.\"\n3. **Action First:** Don't talk about feelings anymore. Talk about motion.\n"

/-- ARCHITECT_PROMPT of brain.py. -/
def ARCHITECT_PROMPT : String :=
  "\nYou are 'The Architect'.\nYour Goal: Log the data and optimize the environment.\n\nGuidelines:\n1. **Always Log:** You MUST use the 'save_journal_entry' tool to save the session data.\n2. **Environment Design:** Give ONE tip to optimize their physical space for next time (e.g., \"Put the yoga mat by the bed\").\n3. **Reinforce Identity:** Tell them: \"You are the type of person who takes action.\"\n"

/-- SUPERVISOR_PROMPT of brain.py. -/
def SUPERVISOR_PROMPT : String :=
  "\nAnalyze the user's latest message and Intent. Route to the best specialist:\n\n1. 'STRATEGIST': User wants to set goals, plan, or is confused about what to do.\n2. 'HEALER': User is sad, anxious, tired, stuck, guilt-ridden, or venting.\n3. 'STARTER': User is emotionally okay but lazy/procrastinating, or ready to act.\n4. 'ARCHITECT': User has finished a task, wants to log progress, or says \"I did it\".\n\nReturn ONLY the word: STRATEGIST, HEALER, STARTER, or ARCHITECT.\n"

/-- SAFETY_KEYWORDS of app.py. -/
def SAFETY_KEYWORDS : List String :=
  ["suicide", "kill myself", "want to die", "want to end it all", "end my life",
   "self-harm", "self harm",
   "自殺", "想死", "不想活了", "活不下去", "想結束一切", "傷害自己"]

/-- SAFETY_MESSAGE of app.py (the fixed, non-LLM safety reply). -/
def SAFETY_MESSAGE : String :=
  "⚠️ 我注意到你提到可能與自我傷害或生命安全有關的內容。\n\n我是一個 AI，沒有醫療或心理專業資格，也無法在緊急狀況中提供即時協助。\n\n👉 如果你有**立即的危險**，請立刻聯絡你所在地的緊急電話（例如 911），\n或撥打當地的自殺防治／心理諮詢專線，並尋求家人、朋友或信任的人陪伴你。\n\n你值得被好好對待，也值得被真正看見和幫助。"

/-- The safety-gate condition of app.py:
`any(keyword in prompt.lower() for keyword in SAFETY_KEYWORDS)`. -/
def is_safety_blocked (prompt : String) : Bool :=
  SAFETY_KEYWORDS.any (fun k => containsSub (strToLower prompt) k)

/-- Return value of the `save_journal_entry` tool in brain.py (an f-string
over mood and energy). -/
def save_journal_entry_result (args : ToolArgs) : String :=
  "✅ 已紀錄：Mood=" ++ args.mood ++ ", Energy=" ++ toString args.energy

/-- The journal row appended by `update_journal` in app.py when the tool's
`update_callback` fires. -/
def journal_entry_of (args : ToolArgs) : JournalEntry :=
  { mood := args.mood, energy := args.energy, note := args.note }

/-- Execution state threaded through one brain invocation: the LangGraph
`AgentState` (`messages` accumulated with `operator.add`, `next_step`
replaced) together with the externally visible effects: the journal
database, the trace of provider invocations, and a pending Python
exception (`error`). -/
structure ExecState where
  messages : List Message
  next_step : String
  journal : List JournalEntry
  trace : List ProviderCall
  error : Option String
deriving DecidableEq

/-- Label parsing of `supervisor_node`: uppercase the reply, test substring
containment of the four labels in order, default to healer. -/
def supervisor_route (resp : String) : String :=
  if containsSub (strToUpper resp) "STRATEGIST" then "strategist"
  else if containsSub (strToUpper resp) "HEALER" then "healer"
  else if containsSub (strToUpper resp) "STARTER" then "starter"
  else if containsSub (strToUpper resp) "ARCHITECT" then "architect"
  else "healer"

/-- supervisor_node of brain.py: one untooled provider call on the
supervisor prompt plus the history; stores the parsed label in `next_step`. -/
def supervisor_node (llm : Provider) (s : ExecState) : ExecState :=
  let msgs := Message.system SUPERVISOR_PROMPT :: s.messages
  let resp := llm [] msgs
  { s with next_step := supervisor_route resp.content,
           trace := s.trace ++ [{ tools := [], msgs := msgs }] }

/-- strategist_node of brain.py: prepend the prompt, one untooled provider
call, append the reply (the `operator.add` merge of `{"messages": [reply]}`). -/
def strategist_node (llm : Provider) (s : ExecState) : ExecState :=
  let msgs := Message.system STRATEGIST_PROMPT :: s.messages
  let resp := llm [] msgs
  { s with messages := s.messages ++ [Message.ai resp.content resp.tool_calls],
           next_step := "END",
           trace := s.trace ++ [{ tools := [], msgs := msgs }] }

/-- healer_node of brain.py. -/
def healer_node (llm : Provider) (s : ExecState) : ExecState :=
  let msgs := Message.system HEALER_PROMPT :: s.messages
  let resp := llm [] msgs
  { s with messages := s.messages ++ [Message.ai resp.content resp.tool_calls],
           next_step := "END",
           trace := s.trace ++ [{ tools := [], msgs := msgs }] }

/-- starter_node of brain.py. -/
def starter_node (llm : Provider) (s : ExecState) : ExecState :=
  let msgs := Message.system STARTER_PROMPT :: s.messages
  let resp := llm [] msgs
  { s with messages := s.messages ++ [Message.ai resp.content resp.tool_calls],
           next_step := "END",
           trace := s.trace ++ [{ tools := [], msgs := msgs }] }

/-- The tool-execution loop inside architect_node when `save_tool` exists:
for each tool call, `save_tool.invoke(tool_call["args"])` appends a journal
row via the callback and yields a ToolMessage with the confirmation string
and the call's id.  Returns the tool messages (in call order) and the new
journal. -/
def exec_tool_calls (journal : List JournalEntry) :
    List ToolCall → List Message × List JournalEntry
  | [] => ([], journal)
  | tc :: rest =>
      let res := save_journal_entry_result tc.args
      let r := exec_tool_calls (journal ++ [journal_entry_of tc.args]) rest
      (Message.tool res tc.id :: r.1, r.2)

/-- architect_node of brain.py.  `hasSave` records whether
`create_mind_flow_brain` was given an `update_callback` (so that `save_tool`
exists).  Tools are bound only here and only when `save_tool` exists.  When
the reply carries tool calls but `save_tool` is `None`, the Python code
evaluates `None.invoke(...)` and raises; this is the `error` branch, which
leaves messages and journal untouched. -/
def architect_node (llm : Provider) (hasSave : Bool) (s : ExecState) : ExecState :=
  let tools := if hasSave then ["save_journal_entry"] else []
  let msgs := Message.system ARCHITECT_PROMPT :: s.messages
  let resp := llm tools msgs
  let s1 : ExecState := { s with trace := s.trace ++ [{ tools := tools, msgs := msgs }] }
  if resp.tool_calls.isEmpty then
    { s1 with messages := s1.messages ++ [Message.ai resp.content resp.tool_calls],
              next_step := "END" }
  else if hasSave then
    let r := exec_tool_calls s1.journal resp.tool_calls
    { s1 with messages := s1.messages ++ (Message.ai resp.content resp.tool_calls :: r.1),
              journal := r.2,
              next_step := "END" }
  else
    { s1 with error := some "AttributeError: NoneType object has no attribute invoke" }

/-- Graph nodes of `create_mind_flow_brain` plus LangGraph's END sentinel. -/
inductive Node where
  | supervisor
  | strategist
  | healer
  | starter
  | architect
  | endNode
deriving DecidableEq

/-- The conditional-edge mapping attached to the supervisor node
(`lambda x: x["next_step"]` against the four-key dict); a key outside the
dict has no edge (LangGraph raises). -/
def conditional_edge (next_step : String) : Option Node :=
  if next_step = "strategist" then some Node.strategist
  else if next_step = "healer" then some Node.healer
  else if next_step = "starter" then some Node.starter
  else if next_step = "architect" then some Node.architect
  else none

/-- Out-edges of the compiled graph: the supervisor's conditional edge and
the four static persona-to-END edges. -/
def successor (n : Node) (next_step : String) : Option Node :=
  match n with
  | Node.supervisor => conditional_edge next_step
  | Node.strategist => some Node.endNode
  | Node.healer => some Node.endNode
  | Node.starter => some Node.endNode
  | Node.architect => some Node.endNode
  | Node.endNode => none

/-- Dispatch a graph node to its step function. -/
def run_node (llm : Provider) (hasSave : Bool) : Node → ExecState → ExecState
  | Node.supervisor, s => supervisor_node llm s
  | Node.strategist, s => strategist_node llm s
  | Node.healer, s => healer_node llm s
  | Node.starter, s => starter_node llm s
  | Node.architect, s => architect_node llm hasSave s
  | Node.endNode, s => s

/-- Fuel-bounded execution of the compiled graph from node `n`, returning
the final state and the list of nodes visited.  Running out of fuel models
LangGraph's GraphRecursionError; a missing edge models its invalid-update
error; a raised Python exception stops the walk with the effects performed
so far. -/
def graph_run (llm : Provider) (hasSave : Bool) :
    Nat → Node → ExecState → ExecState × List Node
  | 0, _, s => ({ s with error := some "GraphRecursionError" }, [])
  | fuel + 1, n, s =>
      if n = Node.endNode then (s, [n])
      else
        let s1 := run_node llm hasSave n s
        match s1.error with
        | some _ => (s1, [n])
        | none =>
            match successor n s1.next_step with
            | none => ({ s1 with error := some "InvalidUpdateError" }, [n])
            | some n2 =>
                let r := graph_run llm hasSave fuel n2 s1
                (r.1, n :: r.2)

/-- LangGraph's default recursion limit. -/
def GRAPH_RECURSION_LIMIT : Nat := 25

/-- Result of one `app.invoke({"messages": ...})` on the compiled brain,
together with the externally visible effects and the visited node path. -/
structure BrainResult where
  messages : List Message
  journal : List JournalEntry
  trace : List ProviderCall
  error : Option String
  path : List Node
deriving DecidableEq

/-- One invocation of the brain built by `create_mind_flow_brain`:
`hasCallback` records whether an `update_callback` was supplied (app.py
supplies one; test.py does not).  Entry point is the supervisor node. -/
def create_mind_flow_brain_invoke (llm : Provider) (hasCallback : Bool)
    (journal : List JournalEntry) (messages : List Message) : BrainResult :=
  let init : ExecState :=
    { messages := messages, next_step := "", journal := journal,
      trace := [], error := none }
  let r := graph_run llm hasCallback GRAPH_RECURSION_LIMIT Node.supervisor init
  { messages := r.1.messages, journal := r.1.journal, trace := r.1.trace,
    error := r.1.error, path := r.2 }

/-- The routing decision the supervisor makes for a given history. -/
def turn_route (llm : Provider) (messages : List Message) : String :=
  supervisor_route (llm [] (Message.system SUPERVISOR_PROMPT :: messages)).content

/-- The toast notifications app.py shows after a turn: it inspects only the
single message it appended (`result["messages"][-1]`); only an AI message
with a non-empty tool-call list produces toasts, one per recognized tool
name. -/
def toast_names (m : Message) : List String :=
  match m with
  | Message.ai _ tcs =>
      if tcs.isEmpty then []
      else tcs.filterMap (fun tc =>
        if tc.name = "save_journal_entry" then some "save_journal_entry"
        else if tc.name = "set_full_plan" then some "set_full_plan"
        else none)
  | _ => []

/-- Caller-visible outcome of one turn of the app.py input handler:
the session message list (`st.session_state.messages`), the journal
database, the provider-call trace, the toasts shown, whether the safety
gate fired, and a pending exception. -/
structure TurnResult where
  session : List Message
  journal : List JournalEntry
  trace : List ProviderCall
  toasts : List String
  safety_triggered : Bool
  error : Option String
deriving DecidableEq

/-- The module-level turn handling of app.py (lines 192-224): append the
user message; if a safety keyword occurs in the lowercased prompt, append
the fixed safety reply without touching the brain; otherwise invoke the
brain, append `result["messages"][-1]` to the session, and compute the
toast notifications from that single message. -/
def submitTurn (llm : Provider) (hasCallback : Bool) (journal : List JournalEntry)
    (session : List Message) (prompt : String) : TurnResult :=
  let session1 := session ++ [Message.human prompt]
  if is_safety_blocked prompt then
    { session := session1 ++ [Message.ai SAFETY_MESSAGE []],
      journal := journal, trace := [], toasts := [],
      safety_triggered := true, error := none }
  else
    let result := create_mind_flow_brain_invoke llm hasCallback journal session1
    match result.error with
    | some e =>
        { session := session1, journal := result.journal, trace := result.trace,
          toasts := [], safety_triggered := false, error := some e }
    | none =>
        match result.messages.getLast? with
        | none =>
            { session := session1, journal := result.journal, trace := result.trace,
              toasts := [], safety_triggered := false, error := some "IndexError" }
        | some r =>
            { session := session1 ++ [r], journal := result.journal,
              trace := result.trace, toasts := toast_names r,
              safety_triggered := false, error := none }

/-- Whether a message is a tool-result (ToolMessage) message. -/
def is_tool_message : Message → Bool
  | Message.tool _ _ => true
  | _ => false

/-- Deterministic stub provider that always answers with a plain
classification-style reply and no tool calls. -/
def llmNeverCalled : Provider := fun _ _ => { content := "HEALER", tool_calls := [] }

/-- Deterministic stub provider that returns a tool call for every persona,
while classifying every history as STRATEGIST: mimics the spec's mock for
checking that non-Logger personas cannot surface tool calls. -/
def llmToolPusher : Provider := fun _ _ =>
  { content := "STRATEGIST",
    tool_calls := [{ id := "c9", name := "save_journal_entry",
                     args := { mood := "Stuck", energy := 2, note := "skipped" } }] }

/-- Deterministic stub provider: classifies as ARCHITECT when no tools are
bound (the supervisor call) and, when the journal tool is bound, replies
with two save_journal_entry calls. -/
def llmTwoCalls : Provider := fun tools _ =>
  if tools.isEmpty then { content := "ARCHITECT", tool_calls := [] }
  else { content := "Logged.",
         tool_calls := [{ id := "call_1", name := "save_journal_entry",
                          args := { mood := "Flowing", energy := 7, note := "ran" } },
                        { id := "call_2", name := "save_journal_entry",
                          args := { mood := "Calm", energy := 6, note := "stretched" } }] }

/-- Deterministic stub provider: classifies as ARCHITECT and, when tools are
bound, requests a tool *outside* the registry (name `delete_everything`). -/
def llmUnknownTool : Provider := fun tools _ =>
  if tools.isEmpty then { content := "ARCHITECT", tool_calls := [] }
  else { content := "Done.",
         tool_calls := [{ id := "call_9", name := "delete_everything",
                          args := { mood := "Happy", energy := 5, note := "x" } }] }

/-- Deterministic stub provider whose classification reply contains none of
the four label names. -/
def llmGibberish : Provider := fun _ _ =>
  { content := "I cannot classify this.", tool_calls := [] }

/-- Deterministic stub provider for a successful Logger turn: classifies as
ARCHITECT and, with the journal tool bound, replies with one
save_journal_entry call. -/
def llmLoggerFires : Provider := fun tools _ =>
  if tools.isEmpty then { content := "ARCHITECT", tool_calls := [] }
  else { content := "Great work! Put the mat by the bed.",
         tool_calls := [{ id := "call_1", name := "save_journal_entry",
                          args := { mood := "Flowing", energy := 8, note := "done" } }] }

/-- Deterministic stub provider used for the replay experiment. -/
def llmReplay : Provider := fun _ _ => { content := "STRATEGIST", tool_calls := [] }

/-! Helper lemmas: closed forms of one brain invocation for each routing
outcome, and the unfolding of the tool-execution loop. -/

theorem exec_tool_calls_fst (j : List JournalEntry) (tcs : List ToolCall) :
    (exec_tool_calls j tcs).1 =
      tcs.map (fun tc => Message.tool (save_journal_entry_result tc.args) tc.id) := by
  induction tcs generalizing j with
  | nil => rfl
  | cons tc rest ih => simp [exec_tool_calls, ih]

theorem exec_tool_calls_snd (j : List JournalEntry) (tcs : List ToolCall) :
    (exec_tool_calls j tcs).2 = j ++ tcs.map (fun tc => journal_entry_of tc.args) := by
  induction tcs generalizing j with
  | nil => simp [exec_tool_calls]
  | cons tc rest ih => simp [exec_tool_calls, ih]

theorem supervisor_route_cases (resp : String) :
    supervisor_route resp = "strategist" ∨ supervisor_route resp = "healer" ∨
      supervisor_route resp = "starter" ∨ supervisor_route resp = "architect" := by
  unfold supervisor_route
  repeat' split
  all_goals simp

theorem brain_run_strategist (llm : Provider) (hc : Bool) (j : List JournalEntry)
    (msgs : List Message) (h : turn_route llm msgs = "strategist") :
    create_mind_flow_brain_invoke llm hc j msgs =
      { messages := msgs ++
          [Message.ai (llm [] (Message.system STRATEGIST_PROMPT :: msgs)).content
                      (llm [] (Message.system STRATEGIST_PROMPT :: msgs)).tool_calls],
        journal := j,
        trace := [{ tools := [], msgs := Message.system SUPERVISOR_PROMPT :: msgs },
                  { tools := [], msgs := Message.system STRATEGIST_PROMPT :: msgs }],
        error := none,
        path := [Node.supervisor, Node.strategist, Node.endNode] } := by
  unfold turn_route at h
  simp [create_mind_flow_brain_invoke, GRAPH_RECURSION_LIMIT, graph_run, run_node,
        supervisor_node, strategist_node, successor, conditional_edge, h]

theorem brain_run_healer (llm : Provider) (hc : Bool) (j : List JournalEntry)
    (msgs : List Message) (h : turn_route llm msgs = "healer") :
    create_mind_flow_brain_invoke llm hc j msgs =
      { messages := msgs ++
          [Message.ai (llm [] (Message.system HEALER_PROMPT :: msgs)).content
                      (llm [] (Message.system HEALER_PROMPT :: msgs)).tool_calls],
        journal := j,
        trace := [{ tools := [], msgs := Message.system SUPERVISOR_PROMPT :: msgs },
                  { tools := [], msgs := Message.system HEALER_PROMPT :: msgs }],
        error := none,
        path := [Node.supervisor, Node.healer, Node.endNode] } := by
  unfold turn_route at h
  simp [create_mind_flow_brain_invoke, GRAPH_RECURSION_LIMIT, graph_run, run_node,
        supervisor_node, healer_node, successor, conditional_edge, h]

theorem brain_run_starter (llm : Provider) (hc : Bool) (j : List JournalEntry)
    (msgs : List Message) (h : turn_route llm msgs = "starter") :
    create_mind_flow_brain_invoke llm hc j msgs =
      { messages := msgs ++
          [Message.ai (llm [] (Message.system STARTER_PROMPT :: msgs)).content
                      (llm [] (Message.system STARTER_PROMPT :: msgs)).tool_calls],
        journal := j,
        trace := [{ tools := [], msgs := Message.system SUPERVISOR_PROMPT :: msgs },
                  { tools := [], msgs := Message.system STARTER_PROMPT :: msgs }],
        error := none,
        path := [Node.supervisor, Node.starter, Node.endNode] } := by
  unfold turn_route at h
  simp [create_mind_flow_brain_invoke, GRAPH_RECURSION_LIMIT, graph_run, run_node,
        supervisor_node, starter_node, successor, conditional_edge, h]

theorem brain_run_architect (llm : Provider) (j : List JournalEntry)
    (msgs : List Message) (h : turn_route llm msgs = "architect") :
    create_mind_flow_brain_invoke llm true j msgs =
      { messages := msgs ++
          (Message.ai (llm ["save_journal_entry"] (Message.system ARCHITECT_PROMPT :: msgs)).content
                      (llm ["save_journal_entry"] (Message.system ARCHITECT_PROMPT :: msgs)).tool_calls ::
           (llm ["save_journal_entry"] (Message.system ARCHITECT_PROMPT :: msgs)).tool_calls.map
             (fun tc => Message.tool (save_journal_entry_result tc.args) tc.id)),
        journal := j ++
          (llm ["save_journal_entry"] (Message.system ARCHITECT_PROMPT :: msgs)).tool_calls.map
            (fun tc => journal_entry_of tc.args),
        trace := [{ tools := [], msgs := Message.system SUPERVISOR_PROMPT :: msgs },
                  { tools := ["save_journal_entry"],
                    msgs := Message.system ARCHITECT_PROMPT :: msgs }],
        error := none,
        path := [Node.supervisor, Node.architect, Node.endNode] } := by
  unfold turn_route at h
  by_cases he :
      (llm ["save_journal_entry"] (Message.system ARCHITECT_PROMPT :: msgs)).tool_calls.isEmpty
  · have hnil :
        (llm ["save_journal_entry"] (Message.system ARCHITECT_PROMPT :: msgs)).tool_calls = [] := by
      simpa [List.isEmpty_iff] using he
    simp [create_mind_flow_brain_invoke, GRAPH_RECURSION_LIMIT, graph_run, run_node,
          supervisor_node, architect_node, successor, conditional_edge, h, hnil]
  · simp [create_mind_flow_brain_invoke, GRAPH_RECURSION_LIMIT, graph_run, run_node,
          supervisor_node, architect_node, successor, conditional_edge, h, he,
          exec_tool_calls_fst, exec_tool_calls_snd]

theorem brain_run_architect_no_save_plain (llm : Provider) (j : List JournalEntry)
    (msgs : List Message) (h : turn_route llm msgs = "architect")
    (he : (llm [] (Message.system ARCHITECT_PROMPT :: msgs)).tool_calls.isEmpty = true) :
    create_mind_flow_brain_invoke llm false j msgs =
      { messages := msgs ++
          [Message.ai (llm [] (Message.system ARCHITECT_PROMPT :: msgs)).content
                      (llm [] (Message.system ARCHITECT_PROMPT :: msgs)).tool_calls],
        journal := j,
        trace := [{ tools := [], msgs := Message.system SUPERVISOR_PROMPT :: msgs },
                  { tools := [], msgs := Message.system ARCHITECT_PROMPT :: msgs }],
        error := none,
        path := [Node.supervisor, Node.architect, Node.endNode] } := by
  unfold turn_route at h
  simp [create_mind_flow_brain_invoke, GRAPH_RECURSION_LIMIT, graph_run, run_node,
        supervisor_node, architect_node, successor, conditional_edge, h, he]

theorem brain_run_architect_no_save_calls (llm : Provider) (j : List JournalEntry)
    (msgs : List Message) (h : turn_route llm msgs = "architect")
    (he : (llm [] (Message.system ARCHITECT_PROMPT :: msgs)).tool_calls.isEmpty = false) :
    create_mind_flow_brain_invoke llm false j msgs =
      { messages := msgs,
        journal := j,
        trace := [{ tools := [], msgs := Message.system SUPERVISOR_PROMPT :: msgs },
                  { tools := [], msgs := Message.system ARCHITECT_PROMPT :: msgs }],
        error := some "AttributeError: NoneType object has no attribute invoke",
        path := [Node.supervisor, Node.architect] } := by
  unfold turn_route at h
  simp [create_mind_flow_brain_invoke, GRAPH_RECURSION_LIMIT, graph_run, run_node,
        supervisor_node, architect_node, successor, conditional_edge, h, he]

/-! Claim theorems. -/

/-- C1: for every user text containing one of the fixed crisis keywords
(matched against the case-folded text), submitting the turn appends the
user message and exactly the fixed safety message as the assistant reply,
the provider-call trace is empty (the brain is never invoked), and the
journal is untouched. -/
theorem safety_gate_short_circuits (llm : Provider) (hasCallback : Bool)
    (journal : List JournalEntry) (session : List Message) (prompt : String)
    (k : String) (hk : k ∈ SAFETY_KEYWORDS)
    (hsub : containsSub (strToLower prompt) k = true) :
    submitTurn llm hasCallback journal session prompt =
      { session := session ++ [Message.human prompt, Message.ai SAFETY_MESSAGE []],
        journal := journal, trace := [], toasts := [],
        safety_triggered := true, error := none } := by
  have hb : is_safety_blocked prompt = true := by
    unfold is_safety_blocked
    exact List.any_eq_true.mpr ⟨k, hk, hsub⟩
  simp [submitTurn, hb]

/-- Witness for C1: the mixed-case text "I Want To Die" contains the
keyword "want to die" after case folding, and the turn produces exactly
the safety message with zero provider calls. -/
theorem safety_gate_short_circuits_witness :
    "want to die" ∈ SAFETY_KEYWORDS ∧
    containsSub (strToLower "I Want To Die") "want to die" = true ∧
    submitTurn llmNeverCalled true [] [] "I Want To Die" =
      { session := [Message.human "I Want To Die", Message.ai SAFETY_MESSAGE []],
        journal := [], trace := [], toasts := [],
        safety_triggered := true, error := none } :=
  ⟨by decide, by decide,
   by rw [safety_gate_short_circuits llmNeverCalled true [] [] "I Want To Die"
            "want to die" (by decide) (by decide)]
      rfl⟩

/-- C2: whenever the router does not select the Logger (architect), the
whole turn makes only tool-free provider invocations, the journal is
unchanged, and no tool-result message is appended; hence tool calls can
only ever surface on Logger turns, which are the only ones with the tool
registry bound. -/
theorem non_logger_never_binds_tools (llm : Provider) (hc : Bool)
    (j : List JournalEntry) (msgs : List Message)
    (h : turn_route llm msgs ≠ "architect") :
    ((create_mind_flow_brain_invoke llm hc j msgs).trace.all
        fun c => c.tools.isEmpty) = true ∧
    (create_mind_flow_brain_invoke llm hc j msgs).journal = j ∧
    (((create_mind_flow_brain_invoke llm hc j msgs).messages.drop msgs.length).all
        fun m => !(is_tool_message m)) = true := by
  rcases supervisor_route_cases
      (llm [] (Message.system SUPERVISOR_PROMPT :: msgs)).content with h1 | h1 | h1 | h1
  · rw [brain_run_strategist llm hc j msgs h1]
    exact ⟨rfl, rfl, by simp [List.drop_left, is_tool_message]⟩
  · rw [brain_run_healer llm hc j msgs h1]
    exact ⟨rfl, rfl, by simp [List.drop_left, is_tool_message]⟩
  · rw [brain_run_starter llm hc j msgs h1]
    exact ⟨rfl, rfl, by simp [List.drop_left, is_tool_message]⟩
  · exact absurd h1 h

/-- Witness for C2: a provider that returns a tool call on every
invocation and classifies as STRATEGIST; the turn still binds no tools,
appends no tool-result message, and leaves the journal empty. -/
theorem non_logger_never_binds_tools_witness :
    turn_route llmToolPusher [] ≠ "architect" ∧
    (((create_mind_flow_brain_invoke llmToolPusher true [] []).trace.all
        fun c => c.tools.isEmpty) = true ∧
     (create_mind_flow_brain_invoke llmToolPusher true [] []).journal = [] ∧
     (((create_mind_flow_brain_invoke llmToolPusher true [] []).messages.drop 0).all
        fun m => !(is_tool_message m)) = true) :=
  ⟨by decide, non_logger_never_binds_tools llmToolPusher true [] [] (by decide)⟩

/-- C3: on a Logger (architect) turn with the journal callback installed,
if the assistant reply carries the tool-call list `tcs`, the turn's
message list is the history, then the assistant reply, then exactly one
tool-result message per tool call, in call order, each holding the
matching call id; and the turn completes without error. -/
theorem logger_tool_results_paired (llm : Provider) (j : List JournalEntry)
    (msgs : List Message) (h : turn_route llm msgs = "architect") :
    (create_mind_flow_brain_invoke llm true j msgs).messages =
      msgs ++
        (Message.ai
            (llm ["save_journal_entry"] (Message.system ARCHITECT_PROMPT :: msgs)).content
            (llm ["save_journal_entry"] (Message.system ARCHITECT_PROMPT :: msgs)).tool_calls ::
         (llm ["save_journal_entry"] (Message.system ARCHITECT_PROMPT :: msgs)).tool_calls.map
           (fun tc => Message.tool (save_journal_entry_result tc.args) tc.id)) ∧
    (create_mind_flow_brain_invoke llm true j msgs).error = none := by
  rw [brain_run_architect llm j msgs h]
  exact ⟨rfl, rfl⟩

/-- Witness for C3: a Logger reply with two tool calls yields exactly two
tool-result messages, immediately after the reply, in call order, with
matching ids. -/
theorem logger_tool_results_paired_witness :
    turn_route llmTwoCalls [] = "architect" ∧
    (create_mind_flow_brain_invoke llmTwoCalls true [] []).messages =
      [Message.ai "Logged."
         [{ id := "call_1", name := "save_journal_entry",
            args := { mood := "Flowing", energy := 7, note := "ran" } },
          { id := "call_2", name := "save_journal_entry",
            args := { mood := "Calm", energy := 6, note := "stretched" } }],
       Message.tool "✅ 已紀錄：Mood=Flowing, Energy=7" "call_1",
       Message.tool "✅ 已紀錄：Mood=Calm, Energy=6" "call_2"] ∧
    (create_mind_flow_brain_invoke llmTwoCalls true [] []).error = none := by
  refine ⟨by decide, ?_, (logger_tool_results_paired llmTwoCalls [] [] (by decide)).2⟩
  rw [(logger_tool_results_paired llmTwoCalls [] [] (by decide)).1]
  decide

/-- C4 counterexample: at a Logger turn whose reply requests the
unregistered tool name `delete_everything`, the code does not fail with an
UnknownTool condition and does not skip the effect: it runs the single
registered save-journal handler anyway, appending a journal row and a
tool-result message.  This refutes the claim that an unknown tool name is
looked up, rejected, and leaves no tool effect. -/
theorem unknown_tool_counterexample :
    (create_mind_flow_brain_invoke llmUnknownTool true [] []).error = none ∧
    (create_mind_flow_brain_invoke llmUnknownTool true [] []).journal =
      [{ mood := "Happy", energy := 5, note := "x" }] ∧
    (create_mind_flow_brain_invoke llmUnknownTool true [] []).messages =
      [Message.ai "Done."
         [{ id := "call_9", name := "delete_everything",
            args := { mood := "Happy", energy := 5, note := "x" } }],
       Message.tool "✅ 已紀錄：Mood=Happy, Energy=5" "call_9"] :=
  ⟨by decide, by decide, by decide⟩

/-- C4 amended: tool execution never consults the requested tool name.
On a Logger turn with the callback installed, every tool call in the reply
is executed by the single registered save-journal handler — the journal
grows by one row per call, built from the call's arguments only — and the
turn completes without any UnknownTool condition. -/
theorem tool_execution_ignores_name (llm : Provider) (j : List JournalEntry)
    (msgs : List Message) (h : turn_route llm msgs = "architect") :
    (create_mind_flow_brain_invoke llm true j msgs).journal =
      j ++ (llm ["save_journal_entry"] (Message.system ARCHITECT_PROMPT :: msgs)).tool_calls.map
             (fun tc => journal_entry_of tc.args) ∧
    (create_mind_flow_brain_invoke llm true j msgs).error = none := by
  rw [brain_run_architect llm j msgs h]
  exact ⟨rfl, rfl⟩

/-- Witness for the amended C4: with the unregistered name
`delete_everything`, the handler still fires and journals the arguments. -/
theorem tool_execution_ignores_name_witness :
    turn_route llmUnknownTool [] = "architect" ∧
    ((create_mind_flow_brain_invoke llmUnknownTool true [] []).journal =
      [] ++ (llmUnknownTool ["save_journal_entry"]
               (Message.system ARCHITECT_PROMPT :: [])).tool_calls.map
              (fun tc => journal_entry_of tc.args) ∧
     (create_mind_flow_brain_invoke llmUnknownTool true [] []).error = none) :=
  ⟨by decide, tool_execution_ignores_name llmUnknownTool [] [] (by decide)⟩

/-- C5: for every history, the supervisor's routing decision is one of
exactly the four persona labels, and whenever the uppercased provider
reply contains none of the four label names the decision is the healer
(Companion) default. -/
theorem router_total_with_default (llm : Provider) (s : ExecState) :
    ((supervisor_node llm s).next_step = "strategist" ∨
     (supervisor_node llm s).next_step = "healer" ∨
     (supervisor_node llm s).next_step = "starter" ∨
     (supervisor_node llm s).next_step = "architect") ∧
    (containsSub (strToUpper (llm [] (Message.system SUPERVISOR_PROMPT :: s.messages)).content)
        "STRATEGIST" = false →
     containsSub (strToUpper (llm [] (Message.system SUPERVISOR_PROMPT :: s.messages)).content)
        "HEALER" = false →
     containsSub (strToUpper (llm [] (Message.system SUPERVISOR_PROMPT :: s.messages)).content)
        "STARTER" = false →
     containsSub (strToUpper (llm [] (Message.system SUPERVISOR_PROMPT :: s.messages)).content)
        "ARCHITECT" = false →
     (supervisor_node llm s).next_step = "healer") := by
  constructor
  · simpa [supervisor_node] using
      supervisor_route_cases (llm [] (Message.system SUPERVISOR_PROMPT :: s.messages)).content
  · intro h1 h2 h3 h4
    simp [supervisor_node, supervisor_route, h1, h2, h3, h4]

/-- Witness for C5: a reply containing no label name routes to healer. -/
theorem router_total_with_default_witness :
    containsSub (strToUpper (llmGibberish []
        (Message.system SUPERVISOR_PROMPT :: ([] : List Message))).content) "STRATEGIST" = false ∧
    containsSub (strToUpper (llmGibberish []
        (Message.system SUPERVISOR_PROMPT :: ([] : List Message))).content) "HEALER" = false ∧
    containsSub (strToUpper (llmGibberish []
        (Message.system SUPERVISOR_PROMPT :: ([] : List Message))).content) "STARTER" = false ∧
    containsSub (strToUpper (llmGibberish []
        (Message.system SUPERVISOR_PROMPT :: ([] : List Message))).content) "ARCHITECT" = false ∧
    (supervisor_node llmGibberish
        { messages := [], next_step := "", journal := [], trace := [], error := none }).next_step =
      "healer" :=
  ⟨by decide, by decide, by decide, by decide,
   (router_total_with_default llmGibberish
      { messages := [], next_step := "", journal := [], trace := [], error := none }).2
     (by decide) (by decide) (by decide) (by decide)⟩

/-- C6: the router parses the uppercased reply by substring containment in
the fixed priority order STRATEGIST, HEALER, STARTER, ARCHITECT, first
match winning: each conjunct states that a label wins exactly when it is
present and all earlier labels are absent, so a reply containing several
labels routes to the earliest one. -/
theorem router_priority_order (resp : String) :
    (containsSub (strToUpper resp) "STRATEGIST" = true →
       supervisor_route resp = "strategist") ∧
    (containsSub (strToUpper resp) "STRATEGIST" = false →
     containsSub (strToUpper resp) "HEALER" = true →
       supervisor_route resp = "healer") ∧
    (containsSub (strToUpper resp) "STRATEGIST" = false →
     containsSub (strToUpper resp) "HEALER" = false →
     containsSub (strToUpper resp) "STARTER" = true →
       supervisor_route resp = "starter") ∧
    (containsSub (strToUpper resp) "STRATEGIST" = false →
     containsSub (strToUpper resp) "HEALER" = false →
     containsSub (strToUpper resp) "STARTER" = false →
     containsSub (strToUpper resp) "ARCHITECT" = true →
       supervisor_route resp = "architect") := by
  refine ⟨fun h1 => ?_, fun h1 h2 => ?_, fun h1 h2 h3 => ?_, fun h1 h2 h3 h4 => ?_⟩ <;>
    simp [supervisor_route, *]

/-- Witness for C6: a reply containing both HEALER and STARTER routes to
healer, the earlier label in the priority order. -/
theorem router_priority_order_witness :
    containsSub (strToUpper "Maybe HEALER, maybe STARTER.") "STRATEGIST" = false ∧
    containsSub (strToUpper "Maybe HEALER, maybe STARTER.") "HEALER" = true ∧
    supervisor_route "Maybe HEALER, maybe STARTER." = "healer" :=
  ⟨by decide, by decide,
   (router_priority_order "Maybe HEALER, maybe STARTER.").2.1 (by decide) (by decide)⟩

/-- C7, evaluated at a failing input (a Logger turn whose reply carries one
save_journal_entry call): the orchestrator's returned message list does
contain the assistant reply followed by the tool result, but the caller
appends only the *last* message (`result["messages"][-1]`) — the
tool-result message — to the session, so the assistant reply never reaches
the caller-visible session, and the toast side channel stays empty because
the appended message has no tool-call attribute.  The claimed notification
therefore never fires on exactly the turns that execute a tool. -/
theorem done_turn_notification_bug :
    (create_mind_flow_brain_invoke llmLoggerFires true [] [Message.human "我完成了"]).messages =
      [Message.human "我完成了",
       Message.ai "Great work! Put the mat by the bed."
         [{ id := "call_1", name := "save_journal_entry",
            args := { mood := "Flowing", energy := 8, note := "done" } }],
       Message.tool "✅ 已紀錄：Mood=Flowing, Energy=8" "call_1"] ∧
    (submitTurn llmLoggerFires true [] [] "我完成了").session =
      [Message.human "我完成了",
       Message.tool "✅ 已紀錄：Mood=Flowing, Energy=8" "call_1"] ∧
    (submitTurn llmLoggerFires true [] [] "我完成了").toasts = [] :=
  ⟨by decide, by decide, by decide⟩

/-- C8: every turn is a single pass: the visited node path is the
supervisor, then exactly one persona node, then the terminal node (or a
stop at the persona node when the Python tool-execution slip raises); in
particular at most one routing decision and at most one persona execution
occur and there is no transition from tool execution back to routing. -/
theorem single_pass_per_turn (llm : Provider) (hc : Bool) (j : List JournalEntry)
    (msgs : List Message) :
    ∃ p : Node,
      (p = Node.strategist ∨ p = Node.healer ∨ p = Node.starter ∨ p = Node.architect) ∧
      ((create_mind_flow_brain_invoke llm hc j msgs).path = [Node.supervisor, p, Node.endNode] ∨
       (create_mind_flow_brain_invoke llm hc j msgs).path = [Node.supervisor, p]) := by
  rcases supervisor_route_cases
      (llm [] (Message.system SUPERVISOR_PROMPT :: msgs)).content with h | h | h | h
  · exact ⟨Node.strategist, Or.inl rfl,
      Or.inl (by rw [brain_run_strategist llm hc j msgs h])⟩
  · exact ⟨Node.healer, Or.inr (Or.inl rfl),
      Or.inl (by rw [brain_run_healer llm hc j msgs h])⟩
  · exact ⟨Node.starter, Or.inr (Or.inr (Or.inl rfl)),
      Or.inl (by rw [brain_run_starter llm hc j msgs h])⟩
  · cases hc with
    | true => exact ⟨Node.architect, Or.inr (Or.inr (Or.inr rfl)),
        Or.inl (by rw [brain_run_architect llm j msgs h])⟩
    | false =>
        cases he : (llm [] (Message.system ARCHITECT_PROMPT :: msgs)).tool_calls.isEmpty with
        | true => exact ⟨Node.architect, Or.inr (Or.inr (Or.inr rfl)),
            Or.inl (by rw [brain_run_architect_no_save_plain llm j msgs h he])⟩
        | false => exact ⟨Node.architect, Or.inr (Or.inr (Or.inr rfl)),
            Or.inr (by rw [brain_run_architect_no_save_calls llm j msgs h he])⟩

/-- C9: the orchestrator is deterministic given a deterministic stub
provider: replaying the same finalized history with the same next user
input yields the same routing decision and the same turn result. -/
theorem deterministic_replay (llm : Provider) (hc : Bool) (j : List JournalEntry)
    (hist1 hist2 : List Message) (u1 u2 : String)
    (hh : hist1 = hist2) (hu : u1 = u2) :
    turn_route llm (hist1 ++ [Message.human u1]) =
      turn_route llm (hist2 ++ [Message.human u2]) ∧
    submitTurn llm hc j hist1 u1 = submitTurn llm hc j hist2 u2 := by
  subst hh; subst hu; exact ⟨rfl, rfl⟩

/-- Witness for C9: two runs on the same history and input coincide. -/
theorem deterministic_replay_witness :
    turn_route llmReplay ([Message.ai "hi" []] ++ [Message.human "plan my week"]) =
      turn_route llmReplay ([Message.ai "hi" []] ++ [Message.human "plan my week"]) ∧
    submitTurn llmReplay true [] [Message.ai "hi" []] "plan my week" =
      submitTurn llmReplay true [] [Message.ai "hi" []] "plan my week" :=
  deterministic_replay llmReplay true [] [Message.ai "hi" []] [Message.ai "hi" []]
    "plan my week" "plan my week" rfl rfl

/-- C10: when the brain is created without an update_callback, no provider
invocation of the turn has any tool bound, the journal is never written,
and no tool-result message is ever appended, whatever the provider
replies (on the misbehaving-provider path the code raises before any
effect, leaving journal and messages untouched). -/
theorem no_callback_no_tool_effects (llm : Provider) (j : List JournalEntry)
    (msgs : List Message) :
    (create_mind_flow_brain_invoke llm false j msgs).journal = j ∧
    ((create_mind_flow_brain_invoke llm false j msgs).trace.all
        fun c => c.tools.isEmpty) = true ∧
    (((create_mind_flow_brain_invoke llm false j msgs).messages.drop msgs.length).all
        fun m => !(is_tool_message m)) = true := by
  rcases supervisor_route_cases
      (llm [] (Message.system SUPERVISOR_PROMPT :: msgs)).content with h | h | h | h
  · rw [brain_run_strategist llm false j msgs h]
    exact ⟨rfl, rfl, by simp [List.drop_left, is_tool_message]⟩
  · rw [brain_run_healer llm false j msgs h]
    exact ⟨rfl, rfl, by simp [List.drop_left, is_tool_message]⟩
  · rw [brain_run_starter llm false j msgs h]
    exact ⟨rfl, rfl, by simp [List.drop_left, is_tool_message]⟩
  · cases he : (llm [] (Message.system ARCHITECT_PROMPT :: msgs)).tool_calls.isEmpty with
    | true =>
        rw [brain_run_architect_no_save_plain llm j msgs h he]
        exact ⟨rfl, rfl, by simp [List.drop_left, is_tool_message]⟩
    | false =>
        rw [brain_run_architect_no_save_calls llm j msgs h he]
        exact ⟨rfl, rfl, by simp [List.drop_length]⟩

end MindFlow
